import Mathlib

/-!
Shallow embedding of the AVS3 audio frame-header parser
(src/libavcodec/av3a_parser.c) and verification of its specification.

The bitstream reader (GetBitContext restricted to the uses made here:
MSB-first unsigned reads over a 9-byte buffer) is modelled by readBits.
The static configuration tables are transcribed verbatim.  The header
decoder read_av3a_frame_header is modelled as a total function returning
the C status, the final contents of the caller-supplied output record,
and the number of bits consumed.  The two places where the C code is
undefined (dereferencing a NULL bitrateTable pointer for the 10.2 / 22.2
configurations, and indexing codecBitrateConfigTable one past its 14
entries with the CHANNEL_CONFIG_UNKNOWN sentinel) are modelled as the
distinguished outcomes nullTableDeref and oobTableRead, so that well-
definedness of each lookup is an explicit, inspectable proposition.
-/

namespace Av3a

/-- Bit i (counting from the start of the buffer, MSB of each byte first)
of a byte buffer; bytes past the end read as 0, matching a zero-padded
copy (never exercised: all reads stay inside the 9 supplied bytes). -/
def getBit (buf : List Nat) (i : Nat) : Nat :=
  buf.getD (i / 8) 0 / 2 ^ (7 - i % 8) % 2

/-- MSB-first unsigned read of w bits starting at bit position pos,
modelling get_bits of get_bits.h for the widths used by the parser. -/
def readBits (buf : List Nat) (pos : Nat) : Nat → Nat
  | 0 => 0
  | w + 1 => 2 * readBits buf pos w + getBit buf (pos + w)

/-- AVS3_AUDIO_SYNC_WORD of av3a_parser.c. -/
def AVS3_AUDIO_SYNC_WORD : Nat := 0xFFF

/-- AVS3_SIZE_FS_TABLE of av3a_parser.c. -/
def AVS3_SIZE_FS_TABLE : Nat := 9

/-- MAX_NBYTES_FRAME_HEADER of av3a_parser.c. -/
def MAX_NBYTES_FRAME_HEADER : Nat := 9

/-- AVS3_AUDIO_FRAME_SIZE of av3a_parser.c. -/
def AVS3_AUDIO_FRAME_SIZE : Nat := 1024

/-- CHANNEL_CONFIG_UNKNOWN: the 15th enumerator of AVS3AChannelConfig,
numerically 14, one past the last valid channel configuration. -/
def CHANNEL_CONFIG_UNKNOWN : Nat := 14

/-- AVERROR_INVALIDDATA = -MKTAG of the four characters I N D A
(libavutil/error.h). -/
def AVERROR_INVALIDDATA : Int := -1094995529

/-- AV_SAMPLE_FMT_U8 of libavutil/samplefmt.h. -/
def AV_SAMPLE_FMT_U8 : Nat := 0

/-- AV_SAMPLE_FMT_S16 of libavutil/samplefmt.h. -/
def AV_SAMPLE_FMT_S16 : Nat := 1

/-- AV_CH_LAYOUT_MONO = AV_CH_FRONT_CENTER (libavutil/channel_layout.h). -/
def AV_CH_LAYOUT_MONO : Nat := 0x4

/-- AV_CH_LAYOUT_STEREO = front left | front right. -/
def AV_CH_LAYOUT_STEREO : Nat := 0x3

/-- AVS3P3_CH_LAYOUT_5POINT1 = surround | LFE | back left | back right,
as defined at the top of av3a_parser.c. -/
def AVS3P3_CH_LAYOUT_5POINT1 : Nat := 0x3F

/-- AV_CH_LAYOUT_7POINT1 of libavutil/channel_layout.h. -/
def AV_CH_LAYOUT_7POINT1 : Nat := 0x63F

/-- AV_CH_LAYOUT_22POINT2 of libavutil/channel_layout.h. -/
def AV_CH_LAYOUT_22POINT2 : Nat := 0x1F80003FFFF

/-- avs3_samplingrate_table: 9 sampling rates in Hz. -/
def avs3_samplingrate_table : List Nat :=
  [192000, 96000, 48000, 44100, 32000, 24000, 22050, 16000, 8000]

/-- bitrateTableMono of av3a_parser.c. -/
def bitrateTableMono : List Int :=
  [16000, 32000, 44000, 56000, 64000, 72000, 80000, 96000, 128000, 144000, 164000, 192000, 0, 0, 0, 0]

/-- bitrateTableStereo of av3a_parser.c. -/
def bitrateTableStereo : List Int :=
  [24000, 32000, 48000, 64000, 80000, 96000, 128000, 144000, 192000, 256000, 320000, 0, 0, 0, 0, 0]

/-- bitrateTableMC5P1 of av3a_parser.c. -/
def bitrateTableMC5P1 : List Int :=
  [192000, 256000, 320000, 384000, 448000, 512000, 640000, 720000, 144000, 96000, 128000, 160000, 0, 0, 0, 0]

/-- bitrateTableMC7P1 of av3a_parser.c. -/
def bitrateTableMC7P1 : List Int :=
  [192000, 480000, 256000, 384000, 576000, 640000, 128000, 160000, 0, 0, 0, 0, 0, 0, 0, 0]

/-- bitrateTableMC4P0 of av3a_parser.c. -/
def bitrateTableMC4P0 : List Int :=
  [48000, 96000, 128000, 192000, 256000, 0, 0, 0, 0, 0, 0, 0, 0, 0, 0, 0]

/-- bitrateTableMC5P1P2 of av3a_parser.c. -/
def bitrateTableMC5P1P2 : List Int :=
  [152000, 320000, 480000, 576000, 0, 0, 0, 0, 0, 0, 0, 0, 0, 0, 0, 0]

/-- bitrateTableMC5P1P4 of av3a_parser.c. -/
def bitrateTableMC5P1P4 : List Int :=
  [176000, 384000, 576000, 704000, 256000, 448000, 0, 0, 0, 0, 0, 0, 0, 0, 0, 0]

/-- bitrateTableMC7P1P2 of av3a_parser.c. -/
def bitrateTableMC7P1P2 : List Int :=
  [216000, 480000, 576000, 384000, 768000, 0, 0, 0, 0, 0, 0, 0, 0, 0, 0, 0]

/-- bitrateTableMC7P1P4 of av3a_parser.c. -/
def bitrateTableMC7P1P4 : List Int :=
  [240000, 608000, 384000, 512000, 832000, 0, 0, 0, 0, 0, 0, 0, 0, 0, 0, 0]

/-- bitrateTableFoa of av3a_parser.c. -/
def bitrateTableFoa : List Int :=
  [48000, 96000, 128000, 192000, 256000, 0, 0, 0, 0, 0, 0, 0, 0, 0, 0, 0]

/-- bitrateTableHoa2 of av3a_parser.c. -/
def bitrateTableHoa2 : List Int :=
  [192000, 256000, 320000, 384000, 480000, 512000, 640000, 0, 0, 0, 0, 0, 0, 0, 0, 0]

/-- bitrateTableHoa3 of av3a_parser.c. -/
def bitrateTableHoa3 : List Int :=
  [256000, 320000, 384000, 512000, 640000, 896000, 0, 0, 0, 0, 0, 0, 0, 0, 0, 0]

/-- codecBitrateConfigTable: 14 entries indexed by AVS3AChannelConfig
(the channelNumConfig field of each row equals its index and is omitted);
the bitrateTable pointer is NULL (none) for CHANNEL_CONFIG_MC_10_2 (4)
and CHANNEL_CONFIG_MC_22_2 (5). -/
def codecBitrateConfigTable : List (Option (List Int)) :=
  [some bitrateTableMono, some bitrateTableStereo, some bitrateTableMC5P1,
   some bitrateTableMC7P1, none, none, some bitrateTableMC4P0,
   some bitrateTableMC5P1P2, some bitrateTableMC5P1P4, some bitrateTableMC7P1P2,
   some bitrateTableMC7P1P4, some bitrateTableFoa, some bitrateTableHoa2,
   some bitrateTableHoa3]

/-- mcChannelConfigTable: (channelNumConfig, numChannels) pairs; the
mcCmdString names (STEREO, MC_5_1_0, MC_7_1_0, MC_10_2, MC_22_2, MC_4_0,
MC_5_1_2, MC_5_1_4, MC_7_1_2, MC_7_1_4) play no role in the parser and
are omitted. -/
def mcChannelConfigTable : List (Nat × Nat) :=
  [(1, 2), (2, 6), (3, 8), (4, 12), (5, 24), (6, 4), (7, 8), (8, 10), (9, 10), (10, 12)]

/-- Linear scan of mcChannelConfigTable (lines 357-361 of av3a_parser.c):
channels starts at 0 and every matching row overwrites it (no break, so
the last match would win; rows have distinct keys). -/
def mcBedChannels (cfg : Nat) : Nat :=
  mcChannelConfigTable.foldl (fun ch p => if cfg = p.1 then p.2 else ch) 0

/-- Outcome of a decode in the model.  invalidData is the C return
AVERROR_INVALIDDATA; nullTableDeref marks the undefined dereference of a
NULL bitrateTable pointer (configurations 4 and 5); oobTableRead marks
the undefined read of codecBitrateConfigTable at an index at or past its
14 entries (the CHANNEL_CONFIG_UNKNOWN sentinel). -/
inductive Av3aErr where
  | invalidData
  | nullTableDeref
  | oobTableRead
deriving DecidableEq, Repr

/-- Lookup codecBitrateConfigTable at cfg and its bitrateTable at idx,
modelling the C expression codecBitrateConfigTable[cfg].bitrateTable[idx].
The two undefined cases of the C code are made explicit errors. -/
def lookupBitrate (cfg idx : Nat) : Except Av3aErr Int :=
  match codecBitrateConfigTable.get? cfg with
  | none => .error .oobTableRead
  | some none => .error .nullTableDeref
  | some (some t) => .ok (t.getD idx 0)

/-- AVS3AHeaderInfo of av3a_parser.c, field for field. -/
structure AVS3AHeaderInfo where
  codec_id : Nat
  sampling_rate_index : Nat
  sampling_rate : Nat
  bitdepth : Nat
  channels : Nat
  objects : Nat
  hoa_order : Nat
  channel_layout : Nat
  total_bitrate : Int
  content_type : Nat
  channel_num_index : Nat
  total_channels : Nat
  resolution : Nat
  nn_type : Nat
  resolution_index : Nat
deriving DecidableEq, Repr

/-- The all-zero header record. -/
def hdrZero : AVS3AHeaderInfo :=
  { codec_id := 0, sampling_rate_index := 0, sampling_rate := 0, bitdepth := 0,
    channels := 0, objects := 0, hoa_order := 0, channel_layout := 0,
    total_bitrate := 0, content_type := 0, channel_num_index := 0,
    total_channels := 0, resolution := 0, nn_type := 0, resolution_index := 0 }

/-- Channel count and layout assigned by the profile-0 switch on the
channel configuration (lines 275-313); configurations absent from the
switch (10.2 and the three HOA orders) keep the initial 0 / 0. -/
def profile0Channels (idx : Nat) : Nat × Nat :=
  match idx with
  | 0 => (1, AV_CH_LAYOUT_MONO)
  | 1 => (2, AV_CH_LAYOUT_STEREO)
  | 6 => (4, 0)
  | 2 => (6, AVS3P3_CH_LAYOUT_5POINT1)
  | 3 => (8, AV_CH_LAYOUT_7POINT1)
  | 7 => (8, 0)
  | 8 => (10, 0)
  | 9 => (10, 0)
  | 10 => (12, 0)
  | 5 => (24, AV_CH_LAYOUT_22POINT2)
  | _ => (0, 0)

/-- Channel count and channel configuration assigned by the profile-2
switch on the (already incremented) HOA order (lines 378-393); any other
order keeps channels 0 and the CHANNEL_CONFIG_UNKNOWN sentinel. -/
def hoaChannels (order : Nat) : Nat × Nat :=
  match order with
  | 1 => (4, 11)
  | 2 => (9, 12)
  | 3 => (16, 13)
  | _ => (0, CHANNEL_CONFIG_UNKNOWN)

/-- State of the local variables of read_av3a_frame_header after the
profile-specific branch, together with the bit position reached. -/
structure BranchOut where
  content_type : Nat
  hoa_order : Nat
  channels : Nat
  objects : Nat
  channel_layout : Nat
  total_bitrate : Int
  num_chan_index : Nat
  channel_config : Nat
  pos : Nat
deriving DecidableEq, Repr

/-- The profile-specific part of read_av3a_frame_header (lines 265-396),
entered at bit position 35 (after sync, codec id, ancillary bit, nn type,
coding profile, sampling rate index, and the first skipped CRC byte).
Errors carry the bit position at which the decode stops. -/
def readProfileBody (buf : List Nat) (coding_profile : Nat) :
    Except (Av3aErr × Nat) BranchOut :=
  if coding_profile = 0 then
    -- Branch A: direct channel content
    let num_chan_index := readBits buf 35 7
    if CHANNEL_CONFIG_UNKNOWN ≤ num_chan_index then .error (.invalidData, 42)
    else
      let cl := profile0Channels num_chan_index
      .ok { content_type := 0,
            hoa_order := 0,
            channels := cl.1,
            objects := 0,
            channel_layout := cl.2,
            total_bitrate := 0,
            num_chan_index := num_chan_index,
            channel_config := num_chan_index,
            pos := 42 }
  else if coding_profile = 1 then
    -- Branch B: object content, 2-bit sound bed selector first
    let soundBedType := readBits buf 35 2
    if soundBedType = 0 then
      let objects := readBits buf 37 7 + 1
      let obj_brt_idx := readBits buf 44 4
      match lookupBitrate 0 obj_brt_idx with
      | .error e => .error (e, 48)
      | .ok per =>
        .ok { content_type := 1,
              hoa_order := 0,
              channels := 0,
              objects := objects,
              channel_layout := 0,
              total_bitrate := per * (objects : Int),
              num_chan_index := 0,
              channel_config := CHANNEL_CONFIG_UNKNOWN,
              pos := 48 }
    else if soundBedType = 1 then
      let num_chan_index := readBits buf 37 7
      if CHANNEL_CONFIG_UNKNOWN ≤ num_chan_index then .error (.invalidData, 44)
      else
        let bed_brt_idx := readBits buf 44 4
        let objects := readBits buf 48 7 + 1
        let obj_brt_idx := readBits buf 55 4
        match lookupBitrate num_chan_index bed_brt_idx with
        | .error e => .error (e, 59)
        | .ok bed =>
          match lookupBitrate 0 obj_brt_idx with
          | .error e => .error (e, 59)
          | .ok per =>
            .ok { content_type := 2,
                  hoa_order := 0,
                  channels := mcBedChannels num_chan_index,
                  objects := objects,
                  channel_layout := 0,
                  total_bitrate := bed + per * (objects : Int),
                  num_chan_index := num_chan_index,
                  channel_config := num_chan_index,
                  pos := 59 }
    else
      -- sound bed selector 2 or 3: nothing read, nothing assigned
      .ok { content_type := 0,
            hoa_order := 0,
            channels := 0,
            objects := 0,
            channel_layout := 0,
            total_bitrate := 0,
            num_chan_index := 0,
            channel_config := CHANNEL_CONFIG_UNKNOWN,
            pos := 37 }
  else if coding_profile = 2 then
    -- Branch C: ambisonic content
    let hoa_order := readBits buf 35 4 + 1
    let hc := hoaChannels hoa_order
    .ok { content_type := 3,
          hoa_order := hoa_order,
          channels := hc.1,
          objects := 0,
          channel_layout := 0,
          total_bitrate := 0,
          num_chan_index := 0,
          channel_config := hc.2,
          pos := 39 }
  else .error (.invalidData, 35)

/-- Writes to the caller-supplied record (lines 426-460): the shared
fields, then the dispatch on content type, then total bitrate and
resolution; the final else of the dispatch (dead code, since the content
type is always 0..3) returns AVERROR_INVALIDDATA with the shared fields
already written, exactly as the C code would. -/
def assembleHeader (hdf : AVS3AHeaderInfo)
    (codec_id samping_rate_index nn_type bitdepth resolution resolution_index : Nat)
    (st : BranchOut) (total_bitrate : Int) (pos : Nat) :
    Except Av3aErr Unit × AVS3AHeaderInfo × Nat :=
  let h1 : AVS3AHeaderInfo :=
    { hdf with
      codec_id := codec_id,
      sampling_rate_index := samping_rate_index,
      sampling_rate := avs3_samplingrate_table.getD samping_rate_index 0,
      bitdepth := bitdepth,
      nn_type := nn_type,
      content_type := st.content_type }
  if st.content_type = 0 then
    (.ok (), { h1 with
               channel_num_index := st.num_chan_index,
               channels := st.channels,
               objects := 0,
               total_channels := st.channels,
               channel_layout := st.channel_layout,
               total_bitrate := total_bitrate,
               resolution := resolution,
               resolution_index := resolution_index }, pos)
  else if st.content_type = 1 then
    (.ok (), { h1 with
               objects := st.objects,
               channels := 0,
               total_channels := st.objects,
               total_bitrate := total_bitrate,
               resolution := resolution,
               resolution_index := resolution_index }, pos)
  else if st.content_type = 2 then
    (.ok (), { h1 with
               channel_num_index := st.num_chan_index,
               channels := st.channels,
               objects := st.objects,
               total_channels := st.channels + st.objects,
               channel_layout := st.channel_layout,
               total_bitrate := total_bitrate,
               resolution := resolution,
               resolution_index := resolution_index }, pos)
  else if st.content_type = 3 then
    (.ok (), { h1 with
               hoa_order := st.hoa_order,
               channels := st.channels,
               total_channels := st.channels,
               total_bitrate := total_bitrate,
               resolution := resolution,
               resolution_index := resolution_index }, pos)
  else (.error .invalidData, h1, pos)

/-- Lines 416-423 of av3a_parser.c: the profile-dependent total-bitrate
field (read and looked up only when the coding profile is not 1), the
second skipped CRC byte, and the final writes to the record. -/
def readTail (hdf : AVS3AHeaderInfo) (buf : List Nat)
    (codec_id samping_rate_index nn_type coding_profile : Nat)
    (st : BranchOut) (bitdepth resolution resolution_index : Nat) :
    Except Av3aErr Unit × AVS3AHeaderInfo × Nat :=
  if coding_profile ≠ 1 then
    let brt_idx := readBits buf (st.pos + 2) 4
    match lookupBitrate st.channel_config brt_idx with
    | .error e => (.error e, hdf, st.pos + 6)
    | .ok tb =>
      assembleHeader hdf codec_id samping_rate_index nn_type bitdepth
        resolution resolution_index st tb (st.pos + 14)
  else
    assembleHeader hdf codec_id samping_rate_index nn_type bitdepth
      resolution resolution_index st st.total_bitrate (st.pos + 10)

/-- read_av3a_frame_header of av3a_parser.c (the byte_size parameter of
the C function is unused there and omitted here; the bit reader is
always set up over MAX_NBYTES_FRAME_HEADER = 9 bytes).  Returns the C
status, the final contents of the caller-supplied record hdf (unchanged
whenever the C code returns before line 426), and the number of bits
consumed from the buffer. -/
def read_av3a_frame_header (hdf : AVS3AHeaderInfo) (buf : List Nat) :
    Except Av3aErr Unit × AVS3AHeaderInfo × Nat :=
  if readBits buf 0 12 ≠ AVS3_AUDIO_SYNC_WORD then (.error .invalidData, hdf, 12)
  else
    let codec_id := readBits buf 12 4
    if codec_id ≠ 2 then (.error .invalidData, hdf, 16)
    else if readBits buf 16 1 ≠ 0 then (.error .invalidData, hdf, 17)
    else
      let nn_type := readBits buf 17 3
      let coding_profile := readBits buf 20 3
      let samping_rate_index := readBits buf 23 4
      if AVS3_SIZE_FS_TABLE ≤ samping_rate_index then (.error .invalidData, hdf, 27)
      else
        -- 8 CRC bits skipped: the profile branch starts at bit 35
        match readProfileBody buf coding_profile with
        | .error (e, p) => (.error e, hdf, p)
        | .ok st =>
          -- 2 bits for bit depth
          match readBits buf st.pos 2 with
          | 0 => readTail hdf buf codec_id samping_rate_index nn_type
                   coding_profile st AV_SAMPLE_FMT_U8 8 0
          | 1 => readTail hdf buf codec_id samping_rate_index nn_type
                   coding_profile st AV_SAMPLE_FMT_S16 16 1
          | 2 => readTail hdf buf codec_id samping_rate_index nn_type
                   coding_profile st 0 24 2
          | _ => (.error .invalidData, hdf, st.pos + 2)

/-- Fields written to the AVCodecContext / AVCodecParserContext by
raw_av3a_parse on a successful header decode. -/
structure AvctxOut where
  sample_rate : Nat
  bit_rate : Int
  channels : Nat
  channel_layout : Nat
  frame_size : Nat
  format : Nat
deriving DecidableEq, Repr

/-- raw_av3a_parse of av3a_parser.c (lines 465-496), with the pointer
plumbing (poutbuf always receives the whole input buffer) left implicit.
The junk parameter is the indeterminate initial content of the stack
local hdf, of which the C code initialises only channel_layout (to 0).
Returns the C int return value paired with the context fields written
on success (none when nothing was written); the two undefined-behaviour
outcomes of the header decoder propagate as errors. -/
def raw_av3a_parse (junk : AVS3AHeaderInfo) (buf : List Nat) :
    Except Av3aErr (Int × Option AvctxOut) :=
  let hdf0 : AVS3AHeaderInfo := { junk with channel_layout := 0 }
  if buf.length < MAX_NBYTES_FRAME_HEADER then .ok ((buf.length : Int), none)
  else
    match read_av3a_frame_header hdf0 (buf.take MAX_NBYTES_FRAME_HEADER) with
    | (.error .invalidData, _, _) => .ok (AVERROR_INVALIDDATA, none)
    | (.error e, _, _) => .error e
    | (.ok _, h, _) =>
      .ok ((buf.length : Int),
           some { sample_rate := h.sampling_rate,
                  bit_rate := h.total_bitrate,
                  channels := h.total_channels,
                  channel_layout := h.channel_layout,
                  frame_size := AVS3_AUDIO_FRAME_SIZE,
                  format := h.bitdepth })

/-! Concrete 9-byte header buffers used as witnesses and counterexamples.
Bit layout: sync(12) codec_id(4) anc(1) nn_type(3) profile(3) sr_idx(4)
crc1(8), then the profile-dependent fields from bit 35 on. -/

/-- Profile 0, stereo (configuration 1), sampling index 2, resolution
index 1, bitrate index 0 (scenario 1 of the spec). -/
def bufStereo : List Nat := [0xFF, 0xF2, 0x00, 0x40, 0x00, 0x50, 0, 0, 0]

/-- Profile 0, channel configuration 4 (10.2), resolution index 0. -/
def bufCfg4 : List Nat := [0xFF, 0xF2, 0x00, 0x00, 0x01, 0, 0, 0, 0]

/-- Valid sync, codec id 2, ancillary 0, sampling-rate index 9. -/
def bufSrIdx9 : List Nat := [0xFF, 0xF2, 0x01, 0x20, 0, 0, 0, 0, 0]

/-- Profile 1, sound bed selector 1, all remaining fields 0. -/
def bufBedObj : List Nat := [0xFF, 0xF2, 0x02, 0x00, 0x08, 0, 0, 0, 0]

/-- Profile 2, HOA order field 3 (order 4), resolution index 0. -/
def bufHoaBad : List Nat := [0xFF, 0xF2, 0x04, 0x00, 0x06, 0, 0, 0, 0]

/-- Profile 1, sound bed selector 2, resolution index 3. -/
def bufSel2Res3 : List Nat := [0xFF, 0xF2, 0x02, 0x00, 0x16, 0, 0, 0, 0]

/-- Profile 1, sound bed selector 2, resolution index 0. -/
def bufSel2 : List Nat := [0xFF, 0xF2, 0x02, 0x00, 0x10, 0, 0, 0, 0]

/-- Profile 1, sound bed selector 0, object count field 3, per-object
bitrate index 2, resolution index 1 (scenario 2 of the spec). -/
def bufObjOnly : List Nat := [0xFF, 0xF2, 0x02, 0x00, 0x00, 0x32, 0x40, 0, 0]

/-- Profile 2, HOA order field 0 (order 1), resolution index 0,
bitrate index 0 (scenario 3 of the spec). -/
def bufHoa1 : List Nat := [0xFF, 0xF2, 0x04, 0, 0, 0, 0, 0, 0]

/-- As bufStereo but with resolution index 0 and bitrate index 0. -/
def bufStereoRes0 : List Nat := [0xFF, 0xF2, 0x00, 0x40, 0x00, 0x40, 0, 0, 0]

/-- As bufStereoRes0 except resolution index 2 (same bytes except the
two resolution bits). -/
def bufStereoRes2 : List Nat := [0xFF, 0xF2, 0x00, 0x40, 0x00, 0x60, 0, 0, 0]

/-- A caller-supplied output record whose objects field already holds 5. -/
def hObj5 : AVS3AHeaderInfo := { hdrZero with objects := 5 }

/-! Helper lemmas. -/

/-- A single buffer bit is 0 or 1. -/
lemma getBit_lt (buf : List Nat) (i : Nat) : getBit buf i < 2 :=
  Nat.mod_lt _ (by norm_num)

/-- A w-bit read is below 2 ^ w. -/
lemma readBits_lt (buf : List Nat) (pos w : Nat) : readBits buf pos w < 2 ^ w := by
  induction w with
  | zero => simp [readBits]
  | succ n ih =>
    have hb := getBit_lt buf (pos + n)
    simp only [readBits, pow_succ]
    omega

/-- assembleHeader returns exactly the bit position it was given. -/
lemma assembleHeader_pos (hdf : AVS3AHeaderInfo)
    (a b c d e f : Nat) (st : BranchOut) (tb : Int) (pos : Nat) :
    (assembleHeader hdf a b c d e f st tb pos).2.2 = pos := by
  unfold assembleHeader
  repeat' split
  all_goals rfl

/-- A profile-branch error stops at or before bit 59. -/
lemma readProfileBody_pos_err (buf : List Nat) (cp : Nat) (e : Av3aErr) (p : Nat)
    (h : readProfileBody buf cp = .error (e, p)) : p ≤ 59 := by
  unfold readProfileBody at h
  dsimp only [] at h
  repeat' split at h
  all_goals simp_all
  all_goals omega

/-- A normal profile-branch exit leaves room for the common tail
(2 resolution bits, 4 bitrate bits when the profile is not 1, and the 8
skipped CRC bits) within 69 bits. -/
lemma readProfileBody_pos_ok (buf : List Nat) (cp : Nat) (st : BranchOut)
    (h : readProfileBody buf cp = .ok st) :
    st.pos + (if cp = 1 then 10 else 14) ≤ 69 := by
  unfold readProfileBody at h
  dsimp only [] at h
  repeat' split at h
  all_goals (try exact Except.noConfusion h)
  all_goals (injection h with h; subst h)
  all_goals dsimp only
  all_goals split
  all_goals omega

/-- The common tail stays within 69 bits given the room guaranteed by
the profile branch. -/
lemma readTail_pos (hdf : AVS3AHeaderInfo) (buf : List Nat)
    (a b c cp : Nat) (st : BranchOut) (d e f : Nat)
    (h : st.pos + (if cp = 1 then 10 else 14) ≤ 69) :
    (readTail hdf buf a b c cp st d e f).2.2 ≤ 69 := by
  unfold readTail
  dsimp only []
  split
  · rename_i h1
    rw [if_neg h1] at h
    split
    · simp only []
      omega
    · rw [assembleHeader_pos]
      omega
  · rename_i h1
    rw [if_pos (not_not.mp h1)] at h
    rw [assembleHeader_pos]
    omega

/-- Every execution of the header decoder consumes at most 69 bits. -/
lemma read_pos_le (hdf : AVS3AHeaderInfo) (buf : List Nat) :
    (read_av3a_frame_header hdf buf).2.2 ≤ 69 := by
  unfold read_av3a_frame_header
  dsimp only []
  split
  · norm_num
  split
  · norm_num
  split
  · norm_num
  split
  · norm_num
  cases hpb : readProfileBody buf (readBits buf 20 3) with
  | error ep =>
    obtain ⟨e, p⟩ := ep
    have := readProfileBody_pos_err buf _ e p hpb
    simp only []
    omega
  | ok st =>
    have hst := readProfileBody_pos_ok buf _ st hpb
    dsimp only []
    split
    · exact readTail_pos _ _ _ _ _ _ _ _ _ _ hst
    · exact readTail_pos _ _ _ _ _ _ _ _ _ _ hst
    · exact readTail_pos _ _ _ _ _ _ _ _ _ _ hst
    · simp only []
      split at hst
      all_goals omega

/-! Claim theorems. -/

/-- C3 counterexample: a valid profile-1 sound-bed-selector-1 input on
which decode completes successfully having consumed 69 bits, refuting
the claimed 56-bit bound on total consumption. -/
theorem c3_counterexample :
    (read_av3a_frame_header hdrZero bufBedObj).1 = Except.ok () ∧
    (read_av3a_frame_header hdrZero bufBedObj).2.2 = 69 ∧ ¬(69 ≤ 56) :=
  ⟨rfl, rfl, by norm_num⟩

/-- C3 (amended): for every input on which decode completes,
successfully or with an error, the total number of bits consumed from
the buffer is at most 69 (not 56: the profile-1 selector-1 layout is 13
bits longer than the profile-0 one). -/
theorem c3_amended_bits_le_69 (hdf : AVS3AHeaderInfo) (buf : List Nat) :
    (read_av3a_frame_header hdf buf).2.2 ≤ 69 :=
  read_pos_le hdf buf

/-- C9: over all execution paths of the header decoder the bit
consumption is at most 69 bits, and 69 is reached, by a successful
decode on the profile-1 sound-bed-selector-1 path; 69 ≤ 72, so the
72-bit window of a full 9-byte buffer is never exhausted. -/
theorem c9_max_bits_69 :
    (∀ (hdf : AVS3AHeaderInfo) (buf : List Nat),
        (read_av3a_frame_header hdf buf).2.2 ≤ 69) ∧
    readBits bufBedObj 20 3 = 1 ∧
    readBits bufBedObj 35 2 = 1 ∧
    (read_av3a_frame_header hdrZero bufBedObj).1 = Except.ok () ∧
    (read_av3a_frame_header hdrZero bufBedObj).2.2 = 69 ∧ 69 ≤ 72 :=
  ⟨read_pos_le, rfl, rfl, rfl, rfl, by norm_num⟩

/-- C8: with valid sync word, codec id 2 and ancillary flag 0, a
sampling-rate index of 9 or more makes decode fail with
AVERROR_INVALIDDATA after consuming 27 bits, and the caller-supplied
output record is returned exactly as it was: no field is populated. -/
theorem c8_invalid_sampling_rate_index (hdf : AVS3AHeaderInfo) (buf : List Nat)
    (hsync : readBits buf 0 12 = AVS3_AUDIO_SYNC_WORD)
    (hcodec : readBits buf 12 4 = 2)
    (hanc : readBits buf 16 1 = 0)
    (hsr : 9 ≤ readBits buf 23 4) :
    read_av3a_frame_header hdf buf = (Except.error Av3aErr.invalidData, hdf, 27) := by
  simp [read_av3a_frame_header, AVS3_SIZE_FS_TABLE, hsync, hcodec, hanc, hsr]

/-- C8 witness: a concrete well-synced input whose sampling-rate index
field holds 9. -/
theorem c8_witness :
    read_av3a_frame_header hdrZero bufSrIdx9 =
      (Except.error Av3aErr.invalidData, hdrZero, 27) :=
  c8_invalid_sampling_rate_index hdrZero bufSrIdx9 (by decide) (by decide)
    (by decide) (by decide)

/-- C5 counterexample: a 5-byte buffer makes raw_av3a_parse return its
length (5, a non-negative, non-error value) without invoking the header
decoder; it does not fail with a BufferExhausted error as claimed. -/
theorem c5_counterexample :
    raw_av3a_parse hdrZero [0, 0, 0, 0, 0] = Except.ok ((5 : Int), none) ∧
    (∀ e : Av3aErr, raw_av3a_parse hdrZero [0, 0, 0, 0, 0] ≠ Except.error e) ∧
    (0 : Int) ≤ 5 :=
  ⟨rfl, fun _ h => Except.noConfusion h, by norm_num⟩

/-- C5 (amended): when the supplied buffer holds fewer than 9 bytes the
parser returns the buffer length unchanged, the need-more-input
convention rather than an error, writes no output fields, and never
invokes the header decoder, so the buffer contents are never read. -/
theorem c5_amended_short_buffer (junk : AVS3AHeaderInfo) (buf : List Nat)
    (hlen : buf.length < 9) :
    raw_av3a_parse junk buf = Except.ok ((buf.length : Int), none) := by
  simp [raw_av3a_parse, MAX_NBYTES_FRAME_HEADER, hlen]

/-- C5 witness: the five-zero-byte buffer. -/
theorem c5_witness :
    raw_av3a_parse hdrZero [0, 0, 0, 0, 0] =
      Except.ok ((([0, 0, 0, 0, 0] : List Nat).length : Int), none) :=
  c5_amended_short_buffer hdrZero [0, 0, 0, 0, 0] (by norm_num)

/-- The mono bitrate table (configuration 0) is always defined. -/
lemma lookupBitrate_mono (idx : Nat) :
    lookupBitrate 0 idx = Except.ok (bitrateTableMono.getD idx 0) := rfl

/-- Looking up the CHANNEL_CONFIG_UNKNOWN sentinel reads past the end
of codecBitrateConfigTable. -/
lemma lookupBitrate_unknown (idx : Nat) :
    lookupBitrate CHANNEL_CONFIG_UNKNOWN idx = Except.error Av3aErr.oobTableRead := rfl

/-- Every configuration below 14 other than 4 and 5 has a non-NULL
bitrate table, and looking it up yields that table entry. -/
lemma lookupBitrate_defined (cfg : Nat) (h1 : cfg < 14) (h2 : cfg ≠ 4) (h3 : cfg ≠ 5) :
    ∃ t : List Int, codecBitrateConfigTable.get? cfg = some (some t) ∧
      ∀ idx : Nat, lookupBitrate cfg idx = Except.ok (t.getD idx 0) := by
  interval_cases cfg
  all_goals first
    | exact absurd rfl h2
    | exact absurd rfl h3
    | exact ⟨_, rfl, fun idx => rfl⟩

/-- Reduction of the profile-0 branch under a valid configuration. -/
lemma readProfileBody_profile0 (buf : List Nat) (hcfg : readBits buf 35 7 < 14) :
    readProfileBody buf 0 = Except.ok
      { content_type := 0,
        hoa_order := 0,
        channels := (profile0Channels (readBits buf 35 7)).1,
        objects := 0,
        channel_layout := (profile0Channels (readBits buf 35 7)).2,
        total_bitrate := 0,
        num_chan_index := readBits buf 35 7,
        channel_config := readBits buf 35 7,
        pos := 42 } := by
  unfold readProfileBody
  rw [if_pos rfl, if_neg (by simp only [CHANNEL_CONFIG_UNKNOWN]; omega)]

/-- Reduction of the profile-1 branch for sound bed selector 0. -/
lemma readProfileBody_sel0 (buf : List Nat) (hsel : readBits buf 35 2 = 0) :
    readProfileBody buf 1 = Except.ok
      { content_type := 1,
        hoa_order := 0,
        channels := 0,
        objects := readBits buf 37 7 + 1,
        channel_layout := 0,
        total_bitrate := bitrateTableMono.getD (readBits buf 44 4) 0 *
          ((readBits buf 37 7 + 1 : Nat) : Int),
        num_chan_index := 0,
        channel_config := CHANNEL_CONFIG_UNKNOWN,
        pos := 48 } := by
  unfold readProfileBody
  rw [if_neg (by norm_num), if_pos rfl, if_pos hsel]
  dsimp only []
  rw [lookupBitrate_mono]

/-- Reduction of the profile-1 branch for sound bed selectors 2 and 3. -/
lemma readProfileBody_sel23 (buf : List Nat) (hsel : 2 ≤ readBits buf 35 2) :
    readProfileBody buf 1 = Except.ok
      { content_type := 0,
        hoa_order := 0,
        channels := 0,
        objects := 0,
        channel_layout := 0,
        total_bitrate := 0,
        num_chan_index := 0,
        channel_config := CHANNEL_CONFIG_UNKNOWN,
        pos := 37 } := by
  unfold readProfileBody
  rw [if_neg (by norm_num), if_pos rfl, if_neg (by omega), if_neg (by omega)]

/-- Reduction of the profile-2 branch. -/
lemma readProfileBody_profile2 (buf : List Nat) :
    readProfileBody buf 2 = Except.ok
      { content_type := 3,
        hoa_order := readBits buf 35 4 + 1,
        channels := (hoaChannels (readBits buf 35 4 + 1)).1,
        objects := 0,
        channel_layout := 0,
        total_bitrate := 0,
        num_chan_index := 0,
        channel_config := (hoaChannels (readBits buf 35 4 + 1)).2,
        pos := 39 } := by
  unfold readProfileBody
  rw [if_neg (by norm_num), if_neg (by norm_num), if_pos rfl]

/-- Ambisonic orders of 4 and above fall to the default of the switch. -/
lemma hoaChannels_ge4 (n : Nat) : hoaChannels (n + 4) = (0, CHANNEL_CONFIG_UNKNOWN) := rfl

/-- On a successful common tail, the resolution-related output fields
are exactly the arguments of the resolution switch arm taken. -/
lemma readTail_ok_fields (hdf : AVS3AHeaderInfo) (buf : List Nat)
    (a b c cp : Nat) (st : BranchOut) (d e f : Nat)
    (h : AVS3AHeaderInfo) (n : Nat)
    (hE : readTail hdf buf a b c cp st d e f = (Except.ok (), h, n)) :
    h.bitdepth = d ∧ h.resolution = e ∧ h.resolution_index = f := by
  unfold readTail assembleHeader at hE
  dsimp only [] at hE
  repeat' split at hE
  all_goals first
    | (injection hE with h1 hE2; injection hE2 with h2 h3; subst h2
       exact ⟨rfl, rfl, rfl⟩)
    | (exfalso; simp at hE)

/-- On a successful common tail, the channel bookkeeping of the output
record: for content types 0, 1 and 2 the total channel count is the sum
of channels and objects; for content type 3 the objects field keeps its
prior caller-supplied value and the total equals the channel count. -/
lemma readTail_ok_channels (hdf : AVS3AHeaderInfo) (buf : List Nat)
    (a b c cp : Nat) (st : BranchOut) (d e f : Nat)
    (h : AVS3AHeaderInfo) (n : Nat)
    (hE : readTail hdf buf a b c cp st d e f = (Except.ok (), h, n)) :
    (h.content_type ≠ 3 ∧ h.total_channels = h.channels + h.objects) ∨
    (h.content_type = 3 ∧ h.objects = hdf.objects ∧ h.total_channels = h.channels) := by
  unfold readTail assembleHeader at hE
  dsimp only [] at hE
  repeat' split at hE
  all_goals first
    | (injection hE with h1 hE2; injection hE2 with h2 h3; subst h2
       dsimp only
       simp_all)
    | (exfalso; simp at hE)

/-- On every successful decode the resolution-related output fields are
one of the three resolution-switch triples: (bitdepth, resolution,
resolution index) is (0, 8, 0), (1, 16, 1) or (0, 24, 2). -/
lemma read_ok_resolution (hdf : AVS3AHeaderInfo) (buf : List Nat)
    (h : AVS3AHeaderInfo) (n : Nat)
    (hE : read_av3a_frame_header hdf buf = (Except.ok (), h, n)) :
    (h.bitdepth = 0 ∧ h.resolution = 8 ∧ h.resolution_index = 0) ∨
    (h.bitdepth = 1 ∧ h.resolution = 16 ∧ h.resolution_index = 1) ∨
    (h.bitdepth = 0 ∧ h.resolution = 24 ∧ h.resolution_index = 2) := by
  unfold read_av3a_frame_header at hE
  dsimp only [] at hE
  repeat' split at hE
  all_goals first
    | (exfalso; simp at hE)
    | (have hf := readTail_ok_fields _ _ _ _ _ _ _ _ _ _ _ _ hE
       simp only [AV_SAMPLE_FMT_U8, AV_SAMPLE_FMT_S16] at hf
       tauto)

/-- On every successful decode, the channel bookkeeping: for content
types other than 3 the total is channels + objects; for content type 3
the objects field keeps the caller-supplied prior value and the total
equals the channel count. -/
lemma read_ok_channels (hdf : AVS3AHeaderInfo) (buf : List Nat)
    (h : AVS3AHeaderInfo) (n : Nat)
    (hE : read_av3a_frame_header hdf buf = (Except.ok (), h, n)) :
    (h.content_type ≠ 3 ∧ h.total_channels = h.channels + h.objects) ∨
    (h.content_type = 3 ∧ h.objects = hdf.objects ∧ h.total_channels = h.channels) := by
  unfold read_av3a_frame_header at hE
  dsimp only [] at hE
  repeat' split at hE
  all_goals first
    | (exfalso; simp at hE)
    | exact readTail_ok_channels _ _ _ _ _ _ _ _ _ _ _ _ hE

/-- C4 counterexample: an ambisonic (content-type 3) success on a
caller-supplied record whose objects field held 5: the decoder never
writes objects on this branch, so total_channels = 4 while
channels + objects = 4 + 5, refuting the unconditional invariant. -/
theorem c4_counterexample :
    (read_av3a_frame_header hObj5 bufHoa1).1 = Except.ok () ∧
    (read_av3a_frame_header hObj5 bufHoa1).2.1.content_type = 3 ∧
    (read_av3a_frame_header hObj5 bufHoa1).2.1.total_channels = 4 ∧
    (read_av3a_frame_header hObj5 bufHoa1).2.1.channels = 4 ∧
    (read_av3a_frame_header hObj5 bufHoa1).2.1.objects = 5 ∧
    (read_av3a_frame_header hObj5 bufHoa1).2.1.total_channels ≠
      (read_av3a_frame_header hObj5 bufHoa1).2.1.channels +
        (read_av3a_frame_header hObj5 bufHoa1).2.1.objects :=
  ⟨rfl, rfl, rfl, rfl, rfl, by decide⟩

/-- C4 (amended): on every successful decode, total_channels equals
channels + objects for content types 0, 1 and 2; for content type 3 the
objects field is left at the prior value held by the caller-supplied
record, so the equation holds there exactly when that prior value was 0. -/
theorem c4_amended_total_channels (hdf : AVS3AHeaderInfo) (buf : List Nat)
    (hok : (read_av3a_frame_header hdf buf).1 = Except.ok ()) :
    ((read_av3a_frame_header hdf buf).2.1.content_type ≠ 3 →
      (read_av3a_frame_header hdf buf).2.1.total_channels =
        (read_av3a_frame_header hdf buf).2.1.channels +
          (read_av3a_frame_header hdf buf).2.1.objects) ∧
    ((read_av3a_frame_header hdf buf).2.1.content_type = 3 →
      (read_av3a_frame_header hdf buf).2.1.objects = hdf.objects ∧
      (hdf.objects = 0 →
        (read_av3a_frame_header hdf buf).2.1.total_channels =
          (read_av3a_frame_header hdf buf).2.1.channels +
            (read_av3a_frame_header hdf buf).2.1.objects)) := by
  have hE : read_av3a_frame_header hdf buf =
      (Except.ok (), (read_av3a_frame_header hdf buf).2.1,
       (read_av3a_frame_header hdf buf).2.2) := by
    rw [← hok]
  rcases read_ok_channels hdf buf _ _ hE with ⟨hne, heq⟩ | ⟨he3, hobj, htot⟩
  · exact ⟨fun _ => heq, fun hc => absurd hc hne⟩
  · exact ⟨fun hc => absurd he3 hc, fun _ => ⟨hobj, fun hz => by omega⟩⟩

/-- C10 counterexample: two successful decodes whose inputs agree on
every bit except the two resolution bits (holding 0 and 2) have equal
sample-format tags, resolutions 8 and 24, but also differ in the stored
resolution_index field, so the numeric resolution is not the only
distinguishing output field. -/
theorem c10_counterexample :
    (∀ i < 72, i ≠ 42 → i ≠ 43 →
        getBit bufStereoRes0 i = getBit bufStereoRes2 i) ∧
    readBits bufStereoRes0 42 2 = 0 ∧
    readBits bufStereoRes2 42 2 = 2 ∧
    (read_av3a_frame_header hdrZero bufStereoRes0).1 = Except.ok () ∧
    (read_av3a_frame_header hdrZero bufStereoRes2).1 = Except.ok () ∧
    (read_av3a_frame_header hdrZero bufStereoRes0).2.1.bitdepth =
      (read_av3a_frame_header hdrZero bufStereoRes2).2.1.bitdepth ∧
    (read_av3a_frame_header hdrZero bufStereoRes0).2.1.resolution = 8 ∧
    (read_av3a_frame_header hdrZero bufStereoRes2).2.1.resolution = 24 ∧
    (read_av3a_frame_header hdrZero bufStereoRes0).2.1.resolution_index ≠
      (read_av3a_frame_header hdrZero bufStereoRes2).2.1.resolution_index :=
  ⟨by decide, rfl, rfl, rfl, rfl, rfl, rfl, rfl, by decide⟩

/-- C10 (amended): on every successful decode whose stored resolution
index is 0 or 2, the sample-format tag is 0 (the same numeric value,
AV_SAMPLE_FMT_U8, in both cases), and the numeric resolution is 8 for
index 0 and 24 for index 2; two such decodes are thus distinguished by
both the resolution value and the stored resolution index. -/
theorem c10_amended_resolution_tag (hdf : AVS3AHeaderInfo) (buf : List Nat)
    (hok : (read_av3a_frame_header hdf buf).1 = Except.ok ())
    (hri : (read_av3a_frame_header hdf buf).2.1.resolution_index = 0 ∨
           (read_av3a_frame_header hdf buf).2.1.resolution_index = 2) :
    (read_av3a_frame_header hdf buf).2.1.bitdepth = 0 ∧
    ((read_av3a_frame_header hdf buf).2.1.resolution_index = 0 →
      (read_av3a_frame_header hdf buf).2.1.resolution = 8) ∧
    ((read_av3a_frame_header hdf buf).2.1.resolution_index = 2 →
      (read_av3a_frame_header hdf buf).2.1.resolution = 24) := by
  have hE : read_av3a_frame_header hdf buf =
      (Except.ok (), (read_av3a_frame_header hdf buf).2.1,
       (read_av3a_frame_header hdf buf).2.2) := by
    rw [← hok]
  rcases read_ok_resolution hdf buf _ _ hE with ⟨h1, h2, h3⟩ | ⟨h1, h2, h3⟩ | ⟨h1, h2, h3⟩ <;>
    rcases hri with hri | hri <;>
    exact ⟨by omega, fun hc => by omega, fun hc => by omega⟩

/-- C6 counterexample: a well-formed profile-1 input whose sound-bed
selector is 2 on which decode does not succeed (its resolution index
field holds 3), refuting the unconditional claim of success. -/
theorem c6_counterexample :
    readBits bufSel2Res3 0 12 = AVS3_AUDIO_SYNC_WORD ∧
    readBits bufSel2Res3 12 4 = 2 ∧
    readBits bufSel2Res3 16 1 = 0 ∧
    readBits bufSel2Res3 23 4 < 9 ∧
    readBits bufSel2Res3 20 3 = 1 ∧
    readBits bufSel2Res3 35 2 = 2 ∧
    (read_av3a_frame_header hdrZero bufSel2Res3).1 =
      Except.error Av3aErr.invalidData :=
  ⟨rfl, rfl, rfl, by decide, rfl, rfl, rfl⟩

/-- C6 (amended): for every profile-1 input whose sound-bed selector is
2 or 3 and which passes the shared validations including a resolution
index below 3, decode succeeds and the result carries no content
fields: channels, objects, total channels, channel layout and total
bitrate are all zero, after 47 consumed bits. -/
theorem c6_amended_selector_other (hdf : AVS3AHeaderInfo) (buf : List Nat)
    (hsync : readBits buf 0 12 = AVS3_AUDIO_SYNC_WORD)
    (hcodec : readBits buf 12 4 = 2)
    (hanc : readBits buf 16 1 = 0)
    (hsr : readBits buf 23 4 < 9)
    (hprof : readBits buf 20 3 = 1)
    (hsel : 2 ≤ readBits buf 35 2)
    (hres : readBits buf 37 2 < 3) :
    (read_av3a_frame_header hdf buf).1 = Except.ok () ∧
    (read_av3a_frame_header hdf buf).2.1.channels = 0 ∧
    (read_av3a_frame_header hdf buf).2.1.objects = 0 ∧
    (read_av3a_frame_header hdf buf).2.1.total_channels = 0 ∧
    (read_av3a_frame_header hdf buf).2.1.channel_layout = 0 ∧
    (read_av3a_frame_header hdf buf).2.1.total_bitrate = 0 ∧
    (read_av3a_frame_header hdf buf).2.2 = 47 := by
  have h3 : readBits buf 37 2 = 0 ∨ readBits buf 37 2 = 1 ∨ readBits buf 37 2 = 2 := by
    omega
  unfold read_av3a_frame_header
  dsimp only []
  rw [if_neg (by simp [hsync]), if_neg (by simp [hcodec]), if_neg (by simp [hanc]),
      if_neg (by simp only [AVS3_SIZE_FS_TABLE]; omega), hprof,
      readProfileBody_sel23 buf hsel]
  dsimp only []
  rcases h3 with h3 | h3 | h3 <;> rw [h3] <;> dsimp only [] <;>
    unfold readTail <;>
    rw [if_neg (by simp)] <;>
    unfold assembleHeader <;>
    dsimp only [] <;>
    rw [if_pos rfl] <;>
    exact ⟨rfl, rfl, rfl, rfl, rfl, rfl, rfl⟩

/-- C6 witness: the concrete selector-2 input with resolution index 0. -/
theorem c6_witness :
    (read_av3a_frame_header hdrZero bufSel2).1 = Except.ok () ∧
    (read_av3a_frame_header hdrZero bufSel2).2.1.channels = 0 ∧
    (read_av3a_frame_header hdrZero bufSel2).2.1.objects = 0 ∧
    (read_av3a_frame_header hdrZero bufSel2).2.1.total_channels = 0 ∧
    (read_av3a_frame_header hdrZero bufSel2).2.1.channel_layout = 0 ∧
    (read_av3a_frame_header hdrZero bufSel2).2.1.total_bitrate = 0 ∧
    (read_av3a_frame_header hdrZero bufSel2).2.2 = 47 :=
  c6_amended_selector_other hdrZero bufSel2 (by decide) (by decide) (by decide)
    (by decide) (by decide) (by decide) (by decide)

/-- C7: every valid profile-1 sound-bed-selector-0 input decodes to the
object-only content type with zero channels, an object count of the
7-bit field plus one (hence between 1 and 128), total channels equal to
the object count, and a total bitrate of the mono bitrate table entry at
the 4-bit per-object index times the object count. -/
theorem c7_profile1_selector0 (hdf : AVS3AHeaderInfo) (buf : List Nat)
    (hsync : readBits buf 0 12 = AVS3_AUDIO_SYNC_WORD)
    (hcodec : readBits buf 12 4 = 2)
    (hanc : readBits buf 16 1 = 0)
    (hsr : readBits buf 23 4 < 9)
    (hprof : readBits buf 20 3 = 1)
    (hsel : readBits buf 35 2 = 0)
    (hres : readBits buf 48 2 < 3) :
    (read_av3a_frame_header hdf buf).1 = Except.ok () ∧
    (read_av3a_frame_header hdf buf).2.1.content_type = 1 ∧
    (read_av3a_frame_header hdf buf).2.1.channels = 0 ∧
    (read_av3a_frame_header hdf buf).2.1.objects = readBits buf 37 7 + 1 ∧
    1 ≤ (read_av3a_frame_header hdf buf).2.1.objects ∧
    (read_av3a_frame_header hdf buf).2.1.objects ≤ 128 ∧
    (read_av3a_frame_header hdf buf).2.1.total_channels =
      (read_av3a_frame_header hdf buf).2.1.objects ∧
    (read_av3a_frame_header hdf buf).2.1.total_bitrate =
      bitrateTableMono.getD (readBits buf 44 4) 0 *
        ((readBits buf 37 7 + 1 : Nat) : Int) := by
  have hobj : readBits buf 37 7 < 128 := by
    have := readBits_lt buf 37 7
    norm_num at this
    exact this
  have h3 : readBits buf 48 2 = 0 ∨ readBits buf 48 2 = 1 ∨ readBits buf 48 2 = 2 := by
    omega
  unfold read_av3a_frame_header
  dsimp only []
  rw [if_neg (by simp [hsync]), if_neg (by simp [hcodec]), if_neg (by simp [hanc]),
      if_neg (by simp only [AVS3_SIZE_FS_TABLE]; omega), hprof,
      readProfileBody_sel0 buf hsel]
  dsimp only []
  rcases h3 with h3 | h3 | h3 <;> rw [h3] <;> dsimp only [] <;>
    unfold readTail <;>
    rw [if_neg (by simp)] <;>
    unfold assembleHeader <;>
    dsimp only [] <;>
    rw [if_neg (by norm_num), if_pos rfl] <;>
    refine ⟨rfl, rfl, rfl, rfl, ?_, ?_, rfl, rfl⟩ <;>
    dsimp only [] <;>
    omega

/-- C7 witness: scenario 2 of the spec, with object count field 3 and
per-object bitrate index 2. -/
theorem c7_witness :
    (read_av3a_frame_header hdrZero bufObjOnly).1 = Except.ok () ∧
    (read_av3a_frame_header hdrZero bufObjOnly).2.1.content_type = 1 ∧
    (read_av3a_frame_header hdrZero bufObjOnly).2.1.channels = 0 ∧
    (read_av3a_frame_header hdrZero bufObjOnly).2.1.objects =
      readBits bufObjOnly 37 7 + 1 ∧
    1 ≤ (read_av3a_frame_header hdrZero bufObjOnly).2.1.objects ∧
    (read_av3a_frame_header hdrZero bufObjOnly).2.1.objects ≤ 128 ∧
    (read_av3a_frame_header hdrZero bufObjOnly).2.1.total_channels =
      (read_av3a_frame_header hdrZero bufObjOnly).2.1.objects ∧
    (read_av3a_frame_header hdrZero bufObjOnly).2.1.total_bitrate =
      bitrateTableMono.getD (readBits bufObjOnly 44 4) 0 *
        ((readBits bufObjOnly 37 7 + 1 : Nat) : Int) :=
  c7_profile1_selector0 hdrZero bufObjOnly (by decide) (by decide) (by decide)
    (by decide) (by decide) (by decide) (by decide)

/-- C2 counterexample: a profile-2 input whose HOA order field holds 3
(order 4).  The channel configuration stays at the sentinel value 14,
one past the 14 entries of codecBitrateConfigTable, and the common-tail
total-bitrate lookup reads out of bounds: the decode does not complete
as an ordinary success, refuting the claimed well-definedness. -/
theorem c2_counterexample :
    readBits bufHoaBad 20 3 = 2 ∧
    readBits bufHoaBad 35 4 = 3 ∧
    codecBitrateConfigTable.length = 14 ∧
    read_av3a_frame_header hdrZero bufHoaBad =
      (Except.error Av3aErr.oobTableRead, hdrZero, 45) :=
  ⟨rfl, rfl, rfl, rfl⟩

/-- C2 (amended): for every profile-2 input passing the shared
validations whose decoded ambisonic order is not 1, 2 or 3 and whose
resolution index is below 3, the channel count stays 0 and the common
tail is reached, but its total-bitrate lookup indexes
codecBitrateConfigTable at the CHANNEL_CONFIG_UNKNOWN sentinel 14, one
past the table: undefined behaviour in the C code, modelled as the
oobTableRead failure after 45 consumed bits, with the caller record
untouched. -/
theorem c2_amended_hoa_invalid_order (hdf : AVS3AHeaderInfo) (buf : List Nat)
    (hsync : readBits buf 0 12 = AVS3_AUDIO_SYNC_WORD)
    (hcodec : readBits buf 12 4 = 2)
    (hanc : readBits buf 16 1 = 0)
    (hsr : readBits buf 23 4 < 9)
    (hprof : readBits buf 20 3 = 2)
    (hord : 3 ≤ readBits buf 35 4)
    (hres : readBits buf 39 2 < 3) :
    read_av3a_frame_header hdf buf =
      (Except.error Av3aErr.oobTableRead, hdf, 45) := by
  obtain ⟨m, hm⟩ : ∃ m, readBits buf 35 4 = m + 3 :=
    ⟨readBits buf 35 4 - 3, by omega⟩
  have h3 : readBits buf 39 2 = 0 ∨ readBits buf 39 2 = 1 ∨ readBits buf 39 2 = 2 := by
    omega
  unfold read_av3a_frame_header
  dsimp only []
  rw [if_neg (by simp [hsync]), if_neg (by simp [hcodec]), if_neg (by simp [hanc]),
      if_neg (by simp only [AVS3_SIZE_FS_TABLE]; omega), hprof,
      readProfileBody_profile2 buf]
  dsimp only []
  rw [hm, show m + 3 + 1 = m + 4 from rfl, hoaChannels_ge4]
  dsimp only []
  rcases h3 with h3 | h3 | h3 <;> rw [h3] <;> dsimp only [] <;>
    unfold readTail <;>
    rw [if_pos (by norm_num)] <;>
    dsimp only [] <;>
    rw [lookupBitrate_unknown]

/-- C2 witness: the concrete order-field-3 input. -/
theorem c2_witness :
    read_av3a_frame_header hdrZero bufHoaBad =
      (Except.error Av3aErr.oobTableRead, hdrZero, 45) :=
  c2_amended_hoa_invalid_order hdrZero bufHoaBad (by decide) (by decide)
    (by decide) (by decide) (by decide) (by decide) (by decide)

/-- C1 counterexample: an input passing every stated validation
(profile 0, channel configuration 4, i.e. 10.2, resolution index 0),
for which the bitrate table pointer of codecBitrateConfigTable entry 4
is NULL: decode does not succeed with a table entry, it dereferences a
NULL pointer (modelled as nullTableDeref), refuting well-definedness of
the lookup at indices 4 and 5. -/
theorem c1_counterexample :
    readBits bufCfg4 0 12 = AVS3_AUDIO_SYNC_WORD ∧
    readBits bufCfg4 12 4 = 2 ∧
    readBits bufCfg4 16 1 = 0 ∧
    readBits bufCfg4 23 4 < 9 ∧
    readBits bufCfg4 20 3 = 0 ∧
    readBits bufCfg4 35 7 = 4 ∧
    readBits bufCfg4 42 2 = 0 ∧
    codecBitrateConfigTable.get? 4 = some none ∧
    read_av3a_frame_header hdrZero bufCfg4 =
      (Except.error Av3aErr.nullTableDeref, hdrZero, 48) :=
  ⟨rfl, rfl, rfl, by decide, rfl, rfl, rfl, rfl, rfl⟩

/-- C1 (amended): every profile-0 input passing the stated validations
whose channel-configuration index is neither 4 (10.2) nor 5 (22.2)
decodes successfully, and its total bitrate is that configuration's
bitrate table entry at the 4-bit bitrate index; for indices 4 and 5 the
table pointer is NULL and the lookup is undefined (and likewise for the
bed-bitrate lookup of the profile-1 selector-1 branch). -/
theorem c1_amended_profile0_bitrate (hdf : AVS3AHeaderInfo) (buf : List Nat)
    (hsync : readBits buf 0 12 = AVS3_AUDIO_SYNC_WORD)
    (hcodec : readBits buf 12 4 = 2)
    (hanc : readBits buf 16 1 = 0)
    (hsr : readBits buf 23 4 < 9)
    (hprof : readBits buf 20 3 = 0)
    (hcfg : readBits buf 35 7 < 14)
    (hc4 : readBits buf 35 7 ≠ 4)
    (hc5 : readBits buf 35 7 ≠ 5)
    (hres : readBits buf 42 2 < 3) :
    (read_av3a_frame_header hdf buf).1 = Except.ok () ∧
    ∃ t : List Int,
      codecBitrateConfigTable.get? (readBits buf 35 7) = some (some t) ∧
      (read_av3a_frame_header hdf buf).2.1.total_bitrate =
        t.getD (readBits buf 44 4) 0 := by
  obtain ⟨t, hget, hlk⟩ := lookupBitrate_defined _ hcfg hc4 hc5
  have h3 : readBits buf 42 2 = 0 ∨ readBits buf 42 2 = 1 ∨ readBits buf 42 2 = 2 := by
    omega
  unfold read_av3a_frame_header
  dsimp only []
  rw [if_neg (by simp [hsync]), if_neg (by simp [hcodec]), if_neg (by simp [hanc]),
      if_neg (by simp only [AVS3_SIZE_FS_TABLE]; omega), hprof,
      readProfileBody_profile0 buf hcfg]
  dsimp only []
  rcases h3 with h3 | h3 | h3 <;> rw [h3] <;> dsimp only [] <;>
    unfold readTail <;>
    rw [if_pos (by norm_num)] <;>
    dsimp only [] <;>
    rw [hlk] <;>
    dsimp only [] <;>
    unfold assembleHeader <;>
    dsimp only [] <;>
    rw [if_pos rfl] <;>
    exact ⟨rfl, t, hget, rfl⟩

/-- C1 witness: scenario 1 of the spec (stereo, bitrate index 0). -/
theorem c1_witness :
    (read_av3a_frame_header hdrZero bufStereo).1 = Except.ok () ∧
    ∃ t : List Int,
      codecBitrateConfigTable.get? (readBits bufStereo 35 7) = some (some t) ∧
      (read_av3a_frame_header hdrZero bufStereo).2.1.total_bitrate =
        t.getD (readBits bufStereo 44 4) 0 :=
  c1_amended_profile0_bitrate hdrZero bufStereo (by decide) (by decide)
    (by decide) (by decide) (by decide) (by decide) (by decide) (by decide)
    (by decide)

/-- C4 witness: an ambisonic success starting from the all-zero caller
record, for which the invariant does hold. -/
theorem c4_witness :
    ((read_av3a_frame_header hdrZero bufHoa1).2.1.content_type ≠ 3 →
      (read_av3a_frame_header hdrZero bufHoa1).2.1.total_channels =
        (read_av3a_frame_header hdrZero bufHoa1).2.1.channels +
          (read_av3a_frame_header hdrZero bufHoa1).2.1.objects) ∧
    ((read_av3a_frame_header hdrZero bufHoa1).2.1.content_type = 3 →
      (read_av3a_frame_header hdrZero bufHoa1).2.1.objects = hdrZero.objects ∧
      (hdrZero.objects = 0 →
        (read_av3a_frame_header hdrZero bufHoa1).2.1.total_channels =
          (read_av3a_frame_header hdrZero bufHoa1).2.1.channels +
            (read_av3a_frame_header hdrZero bufHoa1).2.1.objects)) :=
  c4_amended_total_channels hdrZero bufHoa1 rfl

/-- C10 witness: the stereo input with resolution index 2. -/
theorem c10_witness :
    (read_av3a_frame_header hdrZero bufStereoRes2).2.1.bitdepth = 0 ∧
    ((read_av3a_frame_header hdrZero bufStereoRes2).2.1.resolution_index = 0 →
      (read_av3a_frame_header hdrZero bufStereoRes2).2.1.resolution = 8) ∧
    ((read_av3a_frame_header hdrZero bufStereoRes2).2.1.resolution_index = 2 →
      (read_av3a_frame_header hdrZero bufStereoRes2).2.1.resolution = 24) :=
  c10_amended_resolution_tag hdrZero bufStereoRes2 rfl (Or.inr rfl)

end Av3a
